import Mathlib

/-!
# CRII_Oct2020_Controller/settings.h

A shallow embedding of the configuration header of the four-tank temperature
controller.  The header holds compile-time constants only: four start
setpoints, a chiller offset, four sensor corrections, three PID gains, the
relay polarity, the sensor count and indices, eight relay pins and the LCD
glyph of the degree sign.

Integer literals are embedded as `Nat` or `Int`.  A decimal literal is a
floating constant of type `double`: its value is the rational number the
digits denote, rounded by `roundNearest` (round to nearest, ties to even) to
the binary format of the target.
-/

namespace Settings

/-! ## Binary floating point

A `double` initialised from a decimal literal holds the literal rounded to the
nearest value of the target's binary format, ties to even.  On the AVR boards
`double` is the 32-bit format, on the ARM boards the 64-bit one, so the format
is a parameter. -/

/-- A binary floating-point format: `prec` significand bits, and the least and
greatest exponent of the last significand bit. -/
structure BinFmt where
  prec : Nat
  emin : Int
  emax : Int
  deriving DecidableEq, Repr

/-- IEEE 754 binary32: 24 significand bits, last-bit exponents -149 .. 104. -/
def binary32 : BinFmt := ⟨24, -149, 104⟩

/-- IEEE 754 binary64: 53 significand bits, last-bit exponents -1074 .. 971. -/
def binary64 : BinFmt := ⟨53, -1074, 971⟩

/-- Floor of the base-2 logarithm, by halving; `fuel` bounds the halvings. -/
def ilog2Aux : Nat → Nat → Nat
  | 0, _ => 0
  | fuel + 1, n => if n < 2 then 0 else ilog2Aux fuel (n / 2) + 1

/-- Floor of the base-2 logarithm of `n` (0 for `n = 0`). -/
def ilog2 (n : Nat) : Nat := ilog2Aux n n

/-- The fraction `n / d` rounded to the nearest natural number, ties to even. -/
def roundHalfEven (n d : Nat) : Nat :=
  let q := n / d
  let r := n % d
  if 2 * r < d then q
  else if d < 2 * r then q + 1
  else if q % 2 = 0 then q else q + 1

/-- Numerator and denominator of `(n / d) / 2 ^ e`. -/
def scaleBy (n d : Nat) (e : Int) : Nat × Nat :=
  if 0 ≤ e then (n, d * 2 ^ e.toNat) else (n * 2 ^ (-e).toNat, d)

/-- The rational `m * 2 ^ e`. -/
def ofSigExp (m : Nat) (e : Int) : ℚ :=
  if 0 ≤ e then mkRat (m * 2 ^ e.toNat) 1 else mkRat m (2 ^ (-e).toNat)

/-- The positive fraction `n / d` rounded to format `f`; `none` on overflow.
The last-bit exponent `e` is the one with `2 ^ (prec - 1) ≤ (n / d) / 2 ^ e <
2 ^ prec`, raised to `emin` for subnormal results. -/
def roundPos (f : BinFmt) (n d : Nat) : Option ℚ :=
  let e0 : Int := (ilog2 n : Int) - (ilog2 d : Int) - ((f.prec : Int) - 1)
  let s0 := scaleBy n d e0
  let e1 : Int := if s0.1 / s0.2 < 2 ^ (f.prec - 1) then e0 - 1 else e0
  let e : Int := max e1 f.emin
  let s := scaleBy n d e
  let m := roundHalfEven s.1 s.2
  let e2 : Int := if m = 2 ^ f.prec then e + 1 else e
  if f.emax < e2 then none else some (ofSigExp m e)

/-- A rational rounded to the nearest value of format `f`, ties to even;
`none` when the magnitude overflows the format. -/
def roundNearest (f : BinFmt) (x : ℚ) : Option ℚ :=
  if x.num = 0 then some 0
  else if 0 < x.num then roundPos f x.num.toNat x.den
  else (roundPos f (-x.num).toNat x.den).map (fun y => -y)

/-! ## Temperature program inputs (settings.h lines 3-17) -/

/-- Source: `double RAMP1_START_TEMP = 30.5;` in format `f`. -/
def RAMP1_START_TEMP (f : BinFmt) : Option ℚ := roundNearest f 30.5
/-- Source: `double RAMP2_START_TEMP = 30.75;` in format `f`. -/
def RAMP2_START_TEMP (f : BinFmt) : Option ℚ := roundNearest f 30.75
/-- Source: `double RAMP3_START_TEMP = 30.5;` in format `f`. -/
def RAMP3_START_TEMP (f : BinFmt) : Option ℚ := roundNearest f 30.5
/-- Source: `double RAMP4_START_TEMP = 30.75;` in format `f`. -/
def RAMP4_START_TEMP (f : BinFmt) : Option ℚ := roundNearest f 30.75

/-- The four start setpoints in tank order. -/
def rampStartTemps (f : BinFmt) : List (Option ℚ) :=
  [RAMP1_START_TEMP f, RAMP2_START_TEMP f, RAMP3_START_TEMP f, RAMP4_START_TEMP f]

/-- Source: `#define CHILLER_OFFSET 0.20`: an unsuffixed floating constant, so a
`double` wherever the macro is used; its value in format `f`. -/
def CHILLER_OFFSET (f : BinFmt) : Option ℚ := roundNearest f 0.20
/-- Source: `#define TANK1_TEMP_CORRECTION 0` -/
def TANK1_TEMP_CORRECTION : Int := 0
/-- Source: `#define TANK2_TEMP_CORRECTION 0` -/
def TANK2_TEMP_CORRECTION : Int := 0
/-- Source: `#define TANK3_TEMP_CORRECTION 0` -/
def TANK3_TEMP_CORRECTION : Int := 0
/-- Source: `#define TANK4_TEMP_CORRECTION 0` -/
def TANK4_TEMP_CORRECTION : Int := 0

/-- Source: `#define KP 2000//5000//600 ...`: what follows `//` is a comment. -/
def KP : Nat := 2000
/-- Source: `#define KI 10//KP/100//27417.54//240 ...`: what follows `//` is a comment. -/
def KI : Nat := 10
/-- Source: `#define KD 1000//40  //` -/
def KD : Nat := 1000

/-! ## Relay polarity, sensor count and indices (settings.h lines 19-25) -/

/-- Source: `#define RELAY_ON 0` -/
def RELAY_ON : Nat := 0
/-- Source: `#define RELAY_OFF 1` -/
def RELAY_OFF : Nat := 1
/-- Source: `#define TempSensors 14` -/
def TempSensors : Nat := 14
/-- Source: `#define T1Index 0` -/
def T1Index : Nat := 0
/-- Source: `#define T2Index 1` -/
def T2Index : Nat := 1
/-- Source: `#define T3Index 2` -/
def T3Index : Nat := 2
/-- Source: `#define T4Index 3` -/
def T4Index : Nat := 3

/-- The sensor index aliases in tank order: entry `k - 1` belongs to tank `k`. -/
def tankIndices : List Nat := [T1Index, T2Index, T3Index, T4Index]

/-! ## Relay pins (settings.h lines 26-33) -/

/-- Source: `#define T1HeaterRelay 22` -/
def T1HeaterRelay : Nat := 22
/-- Source: `#define T1ChillRelay  23` -/
def T1ChillRelay : Nat := 23
/-- Source: `#define T2HeaterRelay  24` -/
def T2HeaterRelay : Nat := 24
/-- Source: `#define T2ChillRelay  25` -/
def T2ChillRelay : Nat := 25
/-- Source: `#define T3HeaterRelay 26` -/
def T3HeaterRelay : Nat := 26
/-- Source: `#define T3ChillRelay  27` -/
def T3ChillRelay : Nat := 27
/-- Source: `#define T4HeaterRelay 28` -/
def T4HeaterRelay : Nat := 28
/-- Source: `#define T4ChillRelay  29` -/
def T4ChillRelay : Nat := 29

/-- The heater pins in tank order. -/
def heaterRelays : List Nat := [T1HeaterRelay, T2HeaterRelay, T3HeaterRelay, T4HeaterRelay]

/-- The chiller pins in tank order. -/
def chillRelays : List Nat := [T1ChillRelay, T2ChillRelay, T3ChillRelay, T4ChillRelay]

/-- The eight relay pins in the order the header defines them. -/
def relayPins : List Nat :=
  [T1HeaterRelay, T1ChillRelay, T2HeaterRelay, T2ChillRelay,
   T3HeaterRelay, T3ChillRelay, T4HeaterRelay, T4ChillRelay]

/-! ## The degree glyph (settings.h lines 37-47)

The initialisers `B00110`, `B01001`, `B00000` are the binary constants of the
Arduino core header `binary.h`, which is not part of this repository: `Bddddd`
is the number whose binary digits are `ddddd`. -/

/-- Arduino core `binary.h`: `#define B00110 6`. -/
def B00110 : Nat := 0b00110
/-- Arduino core `binary.h`: `#define B01001 9`. -/
def B01001 : Nat := 0b01001
/-- Arduino core `binary.h`: `#define B00000 0`. -/
def B00000 : Nat := 0b00000

/-- Source: `byte degree[8] = { B00110, B01001, B01001, B00110, B00000, B00000, B00000, B00000 };` -/
def degree : List Nat :=
  [B00110, B01001, B01001, B00110, B00000, B00000, B00000, B00000]

end Settings

namespace Settings

/-! ## Evaluation lemmas for the rounding model -/

/-- The literal `30.5` is the fraction 61/2 in lowest terms. -/
theorem lit_30_5 : (30.5 : ℚ) = mkRat 61 2 := by
  norm_num [Rat.mkRat_eq_div]

/-- The literal `30.75` is the fraction 123/4 in lowest terms. -/
theorem lit_30_75 : (30.75 : ℚ) = mkRat 123 4 := by
  norm_num [Rat.mkRat_eq_div]

/-- The literal `0.20` is the fraction 1/5 in lowest terms. -/
theorem lit_0_20 : (0.20 : ℚ) = mkRat 1 5 := by
  norm_num [Rat.mkRat_eq_div]

/-- Rounding 61/2 changes nothing, in either format. -/
theorem roundNearest_61_2 :
    roundNearest binary32 (mkRat 61 2) = some (mkRat 61 2) ∧
    roundNearest binary64 (mkRat 61 2) = some (mkRat 61 2) := by
  decide

/-- Rounding 123/4 changes nothing, in either format. -/
theorem roundNearest_123_4 :
    roundNearest binary32 (mkRat 123 4) = some (mkRat 123 4) ∧
    roundNearest binary64 (mkRat 123 4) = some (mkRat 123 4) := by
  decide

/-- Rounding is not the identity: 1/5 has no finite binary expansion, and its
nearest binary64 value is 3602879701896397 / 2 ^ 54. -/
theorem roundNearest_one_fifth :
    roundNearest binary64 (mkRat 1 5) = some (mkRat 3602879701896397 (2 ^ 54)) ∧
    roundNearest binary32 (mkRat 1 5) = some (mkRat 13421773 (2 ^ 26)) := by
  decide

/-- The value of the constant `0.20` in the two formats. -/
theorem chiller_values :
    roundNearest binary64 0.20 = some (3602879701896397 / 2 ^ 54) ∧
    roundNearest binary32 0.20 = some (13421773 / 2 ^ 26) := by
  have h1 : (3602879701896397 / 2 ^ 54 : ℚ) = mkRat 3602879701896397 (2 ^ 54) := by
    norm_num [Rat.mkRat_eq_div]
  have h2 : (13421773 / 2 ^ 26 : ℚ) = mkRat 13421773 (2 ^ 26) := by
    norm_num [Rat.mkRat_eq_div]
  rw [lit_0_20, h1, h2]
  exact roundNearest_one_fifth

/-- The two start values in a format of the two. -/
theorem ramp_values (f : BinFmt) (hf : f = binary32 ∨ f = binary64) :
    roundNearest f 30.5 = some (61 / 2) ∧ roundNearest f 30.75 = some (123 / 4) := by
  have h1 : (61 / 2 : ℚ) = mkRat 61 2 := by norm_num [Rat.mkRat_eq_div]
  have h2 : (123 / 4 : ℚ) = mkRat 123 4 := by norm_num [Rat.mkRat_eq_div]
  rw [lit_30_5, lit_30_75, h1, h2]
  rcases hf with h | h <;> subst h
  · exact ⟨roundNearest_61_2.1, roundNearest_123_4.1⟩
  · exact ⟨roundNearest_61_2.2, roundNearest_123_4.2⟩

/-! ## Properties of the constants -/

/-- C1: the eight relay pin constants are pairwise distinct: any two different
positions of the pin table hold different pin numbers. -/
theorem relay_pins_pairwise_distinct :
    relayPins.length = 8 ∧ relayPins.Nodup ∧
    ∀ i j : Fin relayPins.length, i ≠ j → relayPins.get i ≠ relayPins.get j := by
  decide

/-- C1 at the first two entries: `T1HeaterRelay` and `T1ChillRelay` differ. -/
theorem relay_pins_pairwise_distinct_witness : T1HeaterRelay ≠ T1ChillRelay :=
  relay_pins_pairwise_distinct.2.2 ⟨0, by decide⟩ ⟨1, by decide⟩ (by decide)

/-- C2: each of `T1Index .. T4Index` is at least 0 and below `TempSensors`,
which is 14, so a lookup of any of them in an array of `TempSensors` readings
is in bounds. -/
theorem sensor_indices_in_bounds :
    TempSensors = 14 ∧
    (0 ≤ T1Index ∧ T1Index < TempSensors) ∧ (0 ≤ T2Index ∧ T2Index < TempSensors) ∧
    (0 ≤ T3Index ∧ T3Index < TempSensors) ∧ (0 ≤ T4Index ∧ T4Index < TempSensors) ∧
    ∀ (α : Type) (readings : List α), readings.length = TempSensors →
      ∀ i ∈ tankIndices, readings[i]?.isSome = true := by
  refine ⟨rfl, by decide, by decide, by decide, by decide, ?_⟩
  intro α readings hlen i hi
  have hlt : i < readings.length := by
    rw [hlen]
    revert i
    decide
  rw [List.getElem?_eq_getElem hlt]
  rfl

/-- C2 on an array of fourteen readings: the slot of tank 4 is present. -/
theorem sensor_indices_in_bounds_witness :
    (List.replicate 14 (0 : Nat)).length = TempSensors ∧ T4Index ∈ tankIndices ∧
    (List.replicate 14 (0 : Nat))[T4Index]?.isSome = true :=
  ⟨by decide, by decide,
    sensor_indices_in_bounds.2.2.2.2.2 Nat (List.replicate 14 0) (by decide) T4Index
      (by decide)⟩

/-- C3: `RELAY_ON` is 0 and `RELAY_OFF` is 1, the two differ, and every logic
level in `{0, 1}` equals exactly one of them. -/
theorem relay_polarity_complete :
    RELAY_ON = 0 ∧ RELAY_OFF = 1 ∧ RELAY_ON ≠ RELAY_OFF ∧
    ∀ v : Nat, v = 0 ∨ v = 1 →
      (v = RELAY_ON ∨ v = RELAY_OFF) ∧ ¬ (v = RELAY_ON ∧ v = RELAY_OFF) := by
  refine ⟨rfl, rfl, by decide, ?_⟩
  intro v hv
  rcases hv with h | h <;> subst h <;> decide

/-- C3 at level 1: it is `RELAY_OFF` and it is not `RELAY_ON`. -/
theorem relay_polarity_complete_witness :
    ((1 : Nat) = 0 ∨ (1 : Nat) = 1) ∧
    ((1 = RELAY_ON ∨ 1 = RELAY_OFF) ∧ ¬ (1 = RELAY_ON ∧ 1 = RELAY_OFF)) :=
  ⟨Or.inr rfl, relay_polarity_complete.2.2.2 1 (Or.inr rfl)⟩

/-- C4: the glyph has exactly 8 rows and every row is below 32, so bits 5, 6
and 7 of each byte are zero. -/
theorem degree_rows_five_bits :
    degree.length = 8 ∧
    ∀ i : Fin degree.length, degree.get i < 32 ∧ degree.get i / 32 = 0 := by
  decide

/-- C5: read back as a `double`, in binary32 and in binary64, each start
setpoint is its literal with no rounding: `RAMP1_START_TEMP` and
`RAMP3_START_TEMP` are 30.5 = 61/2, `RAMP2_START_TEMP` and `RAMP4_START_TEMP`
are 30.75 = 123/4, and each is an integer multiple of 1/4. -/
theorem ramp_start_temps_exact (f : BinFmt) (hf : f = binary32 ∨ f = binary64) :
    (RAMP1_START_TEMP f = some 30.5 ∧ RAMP1_START_TEMP f = some (61 / 2)) ∧
    (RAMP2_START_TEMP f = some 30.75 ∧ RAMP2_START_TEMP f = some (123 / 4)) ∧
    (RAMP3_START_TEMP f = some 30.5 ∧ RAMP3_START_TEMP f = some (61 / 2)) ∧
    (RAMP4_START_TEMP f = some 30.75 ∧ RAMP4_START_TEMP f = some (123 / 4)) ∧
    ∀ v ∈ rampStartTemps f, ∃ k : ℤ, v = some ((k : ℚ) / 4) := by
  obtain ⟨ha, hb⟩ := ramp_values f hf
  have e1 : (30.5 : ℚ) = 61 / 2 := by norm_num
  have e2 : (30.75 : ℚ) = 123 / 4 := by norm_num
  refine ⟨⟨?_, ha⟩, ⟨?_, hb⟩, ⟨?_, ha⟩, ⟨?_, hb⟩, ?_⟩
  · rw [RAMP1_START_TEMP, ha, e1]
  · rw [RAMP2_START_TEMP, hb, e2]
  · rw [RAMP3_START_TEMP, ha, e1]
  · rw [RAMP4_START_TEMP, hb, e2]
  · intro v hv
    simp only [rampStartTemps, RAMP1_START_TEMP, RAMP2_START_TEMP, RAMP3_START_TEMP,
      RAMP4_START_TEMP, ha, hb, List.mem_cons, List.mem_singleton, List.not_mem_nil,
      or_false] at hv
    rcases hv with h | h | h | h <;> subst h
    · exact ⟨122, by norm_num⟩
    · exact ⟨123, by norm_num⟩
    · exact ⟨122, by norm_num⟩
    · exact ⟨123, by norm_num⟩

/-- C5 on the AVR format: the four setpoints read back as 61/2, 123/4, 61/2
and 123/4. -/
theorem ramp_start_temps_exact_witness :
    (binary32 = binary32 ∨ binary32 = binary64) ∧
    RAMP1_START_TEMP binary32 = some (61 / 2) ∧ RAMP2_START_TEMP binary32 = some (123 / 4) ∧
    RAMP3_START_TEMP binary32 = some (61 / 2) ∧ RAMP4_START_TEMP binary32 = some (123 / 4) :=
  have h := ramp_start_temps_exact binary32 (Or.inl rfl)
  ⟨Or.inl rfl, h.1.2, h.2.1.2, h.2.2.1.2, h.2.2.2.1.2⟩

/-- C6: the four sensor corrections are zero, so subtracting any of them from
a raw reading `r` gives `r`. -/
theorem corrections_zero :
    TANK1_TEMP_CORRECTION = 0 ∧ TANK2_TEMP_CORRECTION = 0 ∧
    TANK3_TEMP_CORRECTION = 0 ∧ TANK4_TEMP_CORRECTION = 0 ∧
    ∀ r : ℚ, r - (TANK1_TEMP_CORRECTION : ℚ) = r ∧ r - (TANK2_TEMP_CORRECTION : ℚ) = r ∧
      r - (TANK3_TEMP_CORRECTION : ℚ) = r ∧ r - (TANK4_TEMP_CORRECTION : ℚ) = r := by
  refine ⟨rfl, rfl, rfl, rfl, ?_⟩
  intro r
  simp [TANK1_TEMP_CORRECTION, TANK2_TEMP_CORRECTION, TANK3_TEMP_CORRECTION,
    TANK4_TEMP_CORRECTION]

/-- C7 as stated fails: in neither format is `CHILLER_OFFSET` the rational 1/5,
because 1/5 has no finite binary expansion. -/
theorem chiller_offset_not_one_fifth :
    CHILLER_OFFSET binary64 ≠ some (1 / 5) ∧ CHILLER_OFFSET binary32 ≠ some (1 / 5) := by
  rw [CHILLER_OFFSET, CHILLER_OFFSET, chiller_values.1, chiller_values.2]
  constructor <;> intro h <;> rw [Option.some.injEq] at h <;> norm_num at h

/-- C7, amended: `KP` is 2000, `KI` is 10 and `KD` is 1000; `CHILLER_OFFSET` is
the floating constant `0.20`, whose value is the format's nearest to 1/5:
3602879701896397 / 2 ^ 54 in binary64 and 13421773 / 2 ^ 26 in binary32, each
within 2 ^ -27 of 1/5; all four constants are strictly positive. -/
theorem pid_gains_and_offset :
    KP = 2000 ∧ KI = 10 ∧ KD = 1000 ∧
    CHILLER_OFFSET binary64 = some (3602879701896397 / 2 ^ 54) ∧
    CHILLER_OFFSET binary32 = some (13421773 / 2 ^ 26) ∧
    0 < KP ∧ 0 < KI ∧ 0 < KD ∧
    ∀ (f : BinFmt) (v : ℚ), f = binary32 ∨ f = binary64 → CHILLER_OFFSET f = some v →
      0 < v ∧ |v - 1 / 5| ≤ 1 / 2 ^ 27 := by
  refine ⟨rfl, rfl, rfl, chiller_values.1, chiller_values.2, by decide, by decide,
    by decide, ?_⟩
  intro f v hf hv
  rcases hf with h | h <;> subst h
  · rw [CHILLER_OFFSET, chiller_values.2, Option.some.injEq] at hv
    subst hv
    refine ⟨by norm_num, ?_⟩
    rw [abs_le]
    constructor <;> norm_num
  · rw [CHILLER_OFFSET, chiller_values.1, Option.some.injEq] at hv
    subst hv
    refine ⟨by norm_num, ?_⟩
    rw [abs_le]
    constructor <;> norm_num

/-- C7 amended, on the AVR format: the offset is 13421773 / 2 ^ 26, positive
and within 2 ^ -27 of 1/5. -/
theorem pid_gains_and_offset_witness :
    (binary32 = binary32 ∨ binary32 = binary64) ∧
    CHILLER_OFFSET binary32 = some (13421773 / 2 ^ 26) ∧
    (0 : ℚ) < 13421773 / 2 ^ 26 ∧ |(13421773 / 2 ^ 26 : ℚ) - 1 / 5| ≤ 1 / 2 ^ 27 :=
  ⟨Or.inl rfl, pid_gains_and_offset.2.2.2.2.1,
    pid_gains_and_offset.2.2.2.2.2.2.2.2 binary32 (13421773 / 2 ^ 26) (Or.inl rfl)
      pid_gains_and_offset.2.2.2.2.1⟩

/-- C8: the glyph rows are 0b00110, 0b01001, 0b01001, 0b00110, 0, 0, 0, 0:
rows 0 and 3 are equal, rows 1 and 2 are equal, rows 4 to 7 are blank, and
every lit pixel lies in rows 0 to 3. -/
theorem degree_glyph_rows :
    degree = [0b00110, 0b01001, 0b01001, 0b00110, 0, 0, 0, 0] ∧
    degree[0]? = degree[3]? ∧ degree[1]? = degree[2]? ∧
    degree[4]? = some 0 ∧ degree[5]? = some 0 ∧ degree[6]? = some 0 ∧ degree[7]? = some 0 ∧
    ∀ (i : Fin degree.length) (b : Fin 8), (degree.get i).testBit b = true → i.val < 4 := by
  decide

/-- C8 at the pixel in row 1, column bit 3, which is lit and lies in the top
four rows. -/
theorem degree_glyph_rows_witness :
    (degree.get ⟨1, by decide⟩).testBit 3 = true ∧ (1 : Nat) < 4 :=
  ⟨by decide, degree_glyph_rows.2.2.2.2.2.2.2 ⟨1, by decide⟩ ⟨3, by decide⟩ (by decide)⟩

/-- C9: for every tank `k` in 1..4 the heater pin is `22 + 2 * (k - 1)` and
the chiller pin is the heater pin plus one; the eight relay pins are the
heater and chiller pins of the four tanks, they are exactly the numbers 22 to
29, heaters are even and chillers are odd. -/
theorem relay_pins_layout :
    (∀ k : Nat, 1 ≤ k → k ≤ 4 →
      heaterRelays[k - 1]? = some (22 + 2 * (k - 1)) ∧
      chillRelays[k - 1]? = some (22 + 2 * (k - 1) + 1)) ∧
    relayPins = (heaterRelays.zip chillRelays).flatMap (fun p => [p.1, p.2]) ∧
    relayPins.toFinset = Finset.Icc 22 29 ∧
    (∀ n : Nat, n ∈ relayPins ↔ 22 ≤ n ∧ n ≤ 29) ∧
    (∀ i : Fin heaterRelays.length, heaterRelays.get i % 2 = 0) ∧
    (∀ i : Fin chillRelays.length, chillRelays.get i % 2 = 1) := by
  refine ⟨?_, by decide, by decide, ?_, by decide, by decide⟩
  · intro k h1 h4
    interval_cases k <;> decide
  · intro n
    constructor
    · intro h
      revert n
      decide
    · rintro ⟨h1, h2⟩
      interval_cases n <;> decide

/-- C9 at tank 3: heater on pin 26, chiller on pin 27. -/
theorem relay_pins_layout_witness :
    T3HeaterRelay = 22 + 2 * (3 - 1) ∧ T3ChillRelay = T3HeaterRelay + 1 ∧
    heaterRelays[3 - 1]? = some (22 + 2 * (3 - 1)) ∧
    chillRelays[3 - 1]? = some (22 + 2 * (3 - 1) + 1) :=
  ⟨by decide, by decide, relay_pins_layout.1 3 (by decide) (by decide)⟩

/-- C10: the sensor index of tank `k` is `k - 1` for `k` in 1..4, the four
indices are pairwise distinct, and the number of tanks, 4, does not exceed
`TempSensors`, 14. -/
theorem sensor_indices_layout :
    (T1Index = 0 ∧ T2Index = 1 ∧ T3Index = 2 ∧ T4Index = 3) ∧
    (∀ k : Nat, 1 ≤ k → k ≤ 4 → tankIndices[k - 1]? = some (k - 1)) ∧
    tankIndices.Nodup ∧
    tankIndices.length = 4 ∧ TempSensors = 14 ∧ tankIndices.length ≤ TempSensors := by
  refine ⟨by decide, ?_, by decide, by decide, by decide, by decide⟩
  intro k h1 h4
  interval_cases k <;> decide

/-- C10 at tank 4: its sensor index is 3. -/
theorem sensor_indices_layout_witness : tankIndices[4 - 1]? = some (4 - 1) :=
  sensor_indices_layout.2.1 4 (by decide) (by decide)

end Settings

